import Mathlib

/-!
Verification of `app/otel_config.py` (OpenTelemetry configuration and setup
for Insights Host Inventory).

The Python module is shallowly embedded: environment access becomes an
explicit `Env` argument, logging and global side effects become explicit
values in the results, `dict` becomes an insertion-ordered association list
with last-write-wins update, and exceptions become `Except`.
-/

/-! ## Python string primitives -/

/-- Whitespace characters stripped by Python `str.strip()` (ASCII range). -/
def isPySpace (c : Char) : Bool :=
  c = ' ' || c = '\t' || c = '\n' || c = '\r' || c = '\x0b' || c = '\x0c'

/-- Python `str.strip()`: drop whitespace from both ends. -/
def pyStrip (s : String) : String :=
  String.mk (((s.data.dropWhile isPySpace).reverse.dropWhile isPySpace).reverse)

/-- Split a character list on every occurrence of `sep`; the empty list
yields one empty field, matching Python `"".split(",") == [""]`. -/
def splitChars (sep : Char) : List Char → List (List Char)
  | [] => [[]]
  | c :: cs =>
    let r := splitChars sep cs
    if c = sep then [] :: r
    else
      match r with
      | [] => [[c]]
      | h :: t => (c :: h) :: t

/-- Python `s.split(sep)` for a one-character separator. -/
def pySplit (s : String) (sep : Char) : List String :=
  (splitChars sep s.data).map String.mk

/-- Find the first occurrence of `sep` and return the pieces before/after it. -/
def breakAtChar (sep : Char) : List Char → Option (List Char × List Char)
  | [] => none
  | c :: cs =>
    if c = sep then some ([], cs)
    else
      match breakAtChar sep cs with
      | some (a, b) => some (c :: a, b)
      | none => none

/-- Python `s.split("=", 1)` followed by unpacking into `key, value`:
`some (key, value)` when the string contains `'='`, `none` (the
`ValueError` case) when it does not. -/
def splitFirstEq (s : String) : Option (String × String) :=
  match breakAtChar '=' s.data with
  | some (k, v) => some (String.mk k, String.mk v)
  | none => none

/-- Python `str.lower()` (ASCII letters). -/
def pyLower (s : String) : String :=
  String.mk (s.data.map Char.toLower)

/-! ## Python dict as an insertion-ordered association list -/

/-- Python `d[k] = v`: overwrite in place when the key exists (keys are
unique in a dict, so replacing the first occurrence suffices), else append. -/
def dictInsert : List (String × String) → String → String →
    List (String × String)
  | [], k, v => [(k, v)]
  | p :: t, k, v => if p.1 = k then (k, v) :: t else p :: dictInsert t k v

/-- Python `d.get(k)`. -/
def dictGet (d : List (String × String)) (k : String) : Option String :=
  (d.find? (fun p => p.1 = k)).map Prod.snd

/-- The value of the LAST entry for key `k` in a list of pairs. -/
def lastGet : List (String × String) → String → Option String
  | [], _ => none
  | p :: t, k =>
    match lastGet t k with
    | some v => some v
    | none => if p.1 = k then some p.2 else none

/-! ## Python numeric literal parsing (`float()` and `int()`) -/

/-- Decimal value of a digit list. -/
def natOfDigits (l : List Char) : Nat :=
  l.foldl (fun n c => 10 * n + (c.toNat - 48)) 0

/-- Consume an optional leading sign. -/
def parseSign : List Char → Int × List Char
  | '-' :: r => (-1, r)
  | '+' :: r => (1, r)
  | l => (1, l)

/-- Python `int(s)`: strip whitespace, optional sign, nonempty digit run. -/
def parseInt? (s : String) : Option Int :=
  let l := (pyStrip s).data
  let (sg, l2) := parseSign l
  if l2 ≠ [] ∧ l2.all Char.isDigit then some (sg * natOfDigits l2) else none

/-- Parse the optional exponent suffix of a float literal; the whole rest of
the input must be consumed. -/
def parseExpPart : List Char → Option Int
  | [] => some 0
  | c :: r =>
    if c = 'e' ∨ c = 'E' then
      let (sg, r2) := parseSign r
      if r2 ≠ [] ∧ r2.all Char.isDigit then some (sg * natOfDigits r2) else none
    else none

/-- Python `float(s)` restricted to finite decimal literals:
optional sign, digits with an optional fractional part (at least one digit
overall), optional exponent.  `none` models the `ValueError`. -/
def parseFloat? (s : String) : Option Rat :=
  let l := (pyStrip s).data
  let (sg, l2) := parseSign l
  let ip := l2.takeWhile Char.isDigit
  let rest := l2.dropWhile Char.isDigit
  let fpRest : List Char × List Char :=
    match rest with
    | '.' :: r => (r.takeWhile Char.isDigit, r.dropWhile Char.isDigit)
    | _ => ([], rest)
  if ip = [] ∧ fpRest.1 = [] then none
  else
    match parseExpPart fpRest.2 with
    | some e =>
        some ((sg : ℚ) * ((natOfDigits ip : ℚ)
          + (natOfDigits fpRest.1 : ℚ) / (10 : ℚ) ^ fpRest.1.length)
          * (10 : ℚ) ^ e)
    | none => none

/-! ## Environment -/

/-- The process environment: a partial map from variable names to values. -/
def Env : Type := String → Option String

/-- Python `os.getenv(name, dflt)`. -/
def getenvD (env : Env) (name dflt : String) : String :=
  (env name).getD dflt

/-- An environment flag compared against `"true"` after lowercasing,
as in `os.getenv(name, dflt).lower() == "true"`. -/
def boolEnv (env : Env) (name dflt : String) : Bool :=
  pyLower (getenvD env name dflt) == "true"

/-- Truthiness of `Optional[str]` in Python: `None` and `""` are falsy. -/
def strTruthy : Option String → Bool
  | some s => s ≠ ""
  | none => false

/-! ## `OpenTelemetryConfig._parse_custom_attributes` -/

/-- The `for attr in custom_attrs.split(",")` loop inside the `try` block:
entries are processed left to right, each successfully split entry is
written into the dict, and the first entry without `'='` raises
`ValueError`, aborting the loop (the second component records whether the
warning was logged).  Entries already written stay in the dict. -/
def parseAttrsLoop : List String → List (String × String) →
    List (String × String) × Bool
  | [], acc => (acc, false)
  | e :: rest, acc =>
    match splitFirstEq (pyStrip e) with
    | some kv => parseAttrsLoop rest (dictInsert acc kv.1 kv.2)
    | none => (acc, true)

/-- `OpenTelemetryConfig._parse_custom_attributes`, as a function of the
`OTEL_CUSTOM_ATTRIBUTES` string.  Returns the attribute dict together with
a flag recording whether the parse warning was logged. -/
def parse_custom_attributes (custom_attrs : String) :
    List (String × String) × Bool :=
  if custom_attrs ≠ "" then parseAttrsLoop (pySplit custom_attrs ',') []
  else ([], false)

/-! ## `OpenTelemetryConfig.__init__` -/

structure OpenTelemetryConfig where
  service_name : String
  service_version : String
  environment : String
  otel_enabled : Bool
  jaeger_endpoint : Option String
  otlp_endpoint : Option String
  console_exporter : Bool
  trace_sample_rate : Rat
  instrument_flask : Bool
  instrument_sqlalchemy : Bool
  instrument_kafka : Bool
  instrument_psycopg2 : Bool
  custom_attributes : List (String × String)
  deriving DecidableEq, Repr

/-- `OpenTelemetryConfig.__init__`: read every setting with its default.
`float(os.getenv("OTEL_TRACE_SAMPLE_RATE", "0.1"))` raises `ValueError`
on an unparsable value, so construction itself fails (`Except.error`). -/
def OpenTelemetryConfig.init (env : Env) :
    Except String OpenTelemetryConfig :=
  match parseFloat? (getenvD env "OTEL_TRACE_SAMPLE_RATE" "0.1") with
  | none => Except.error "could not convert string to float"
  | some rate =>
      Except.ok
        { service_name := getenvD env "OTEL_SERVICE_NAME" "insights-host-inventory"
          service_version := getenvD env "OTEL_SERVICE_VERSION" "1.0.0"
          environment := getenvD env "OTEL_ENVIRONMENT" "development"
          otel_enabled := boolEnv env "OTEL_ENABLED" "false"
          jaeger_endpoint := env "OTEL_JAEGER_ENDPOINT"
          otlp_endpoint := env "OTEL_OTLP_ENDPOINT"
          console_exporter := boolEnv env "OTEL_CONSOLE_EXPORTER" "false"
          trace_sample_rate := rate
          instrument_flask := boolEnv env "OTEL_INSTRUMENT_FLASK" "true"
          instrument_sqlalchemy := boolEnv env "OTEL_INSTRUMENT_SQLALCHEMY" "true"
          instrument_kafka := boolEnv env "OTEL_INSTRUMENT_KAFKA" "true"
          instrument_psycopg2 := boolEnv env "OTEL_INSTRUMENT_PSYCOPG2" "true"
          custom_attributes :=
            (parse_custom_attributes (getenvD env "OTEL_CUSTOM_ATTRIBUTES" "")).1 }

/-! ## `OpenTelemetryConfig.setup_tracing` -/

/-- A constructed span exporter (lines 93-111 of the source). -/
inductive Exporter where
  | jaeger (agent_host_name : String) (agent_port : Int)
  | otlp (endpoint : String)
  | console
  deriving DecidableEq, Repr

/-- The propagation formats registered in the composite propagator. -/
inductive Propagator where
  | traceContext
  | b3MultiFormat
  | jaegerPropagator
  deriving DecidableEq, Repr

/-- Construction of the `JaegerExporter` (lines 94-99): when the endpoint
contains `':'`, the host is `endpoint.split(":")[0]` and the port is
`int(endpoint.split(":")[1])`, whose `ValueError` propagates; otherwise the
whole endpoint is the host and the port defaults to 14268. -/
def buildJaegerExporter (endpoint : String) : Except String Exporter :=
  if endpoint.data.any (fun c => c = ':') then
    let parts := pySplit endpoint ':'
    match parseInt? (parts.getD 1 "") with
    | some port => Except.ok (Exporter.jaeger (parts.getD 0 "") port)
    | none => Except.error "invalid literal for int() with base 10"
  else Except.ok (Exporter.jaeger endpoint 14268)

/-- The process-wide tracing state installed by a successful, enabled
`setup_tracing` run: the resource attribute dict, one batch span processor
per constructed exporter (in construction order), the composite
propagator's format list, and whether the no-exporter warning fired. -/
structure SetupResult where
  resource : List (String × String)
  span_processors : List Exporter
  propagators : List Propagator
  warned_no_exporters : Bool
  deriving DecidableEq, Repr

/-- The dict literal passed to `Resource.create` (lines 77-84): the three
fixed fields in order, then `**self.custom_attributes` written over them. -/
def resourceAttributes (c : OpenTelemetryConfig) : List (String × String) :=
  c.custom_attributes.foldl (fun d p => dictInsert d p.1 p.2)
    [("service.name", c.service_name),
     ("service.version", c.service_version),
     ("deployment.environment", c.environment)]

/-- `OpenTelemetryConfig.setup_tracing`: `Except.ok none` is the disabled
early return, `Except.ok (some r)` a completed setup, and `Except.error`
an uncaught exception (there is no try/except around exporter
construction, so a `ValueError` from the Jaeger port aborts the method). -/
def OpenTelemetryConfig.setup_tracing (c : OpenTelemetryConfig) :
    Except String (Option SetupResult) :=
  if c.otel_enabled = false then Except.ok none
  else
    let resource := resourceAttributes c
    let jaegerPart : Except String (List Exporter) :=
      if strTruthy c.jaeger_endpoint then
        match buildJaegerExporter (c.jaeger_endpoint.getD "") with
        | Except.ok e => Except.ok [e]
        | Except.error msg => Except.error msg
      else Except.ok []
    match jaegerPart with
    | Except.error msg => Except.error msg
    | Except.ok js =>
      let exporters := js
        ++ (if strTruthy c.otlp_endpoint
            then [Exporter.otlp (c.otlp_endpoint.getD "")] else [])
        ++ (if c.console_exporter then [Exporter.console] else [])
      Except.ok (some
        { resource := resource
          span_processors := exporters
          propagators := [Propagator.traceContext, Propagator.b3MultiFormat,
                          Propagator.jaegerPropagator]
          warned_no_exporters := exporters.isEmpty })

/-! ## `OpenTelemetryConfig.instrument_libraries` -/

/-- The four libraries the module can instrument. -/
inductive Library where
  | flask
  | sqlalchemy
  | kafka
  | psycopg2
  deriving DecidableEq, Repr

/-- Observable outcome of one instrumentation block: either the library was
instrumented (info log), or activation raised and the warning naming the
library was logged. -/
inductive InstrEvent where
  | instrumented (lib : Library)
  | warnFailed (lib : Library)
  deriving DecidableEq, Repr

/-- The library an event is about. -/
def eventLib : InstrEvent → Library
  | InstrEvent.instrumented l => l
  | InstrEvent.warnFailed l => l

/-- The per-library flag of the configuration. -/
def libFlag (c : OpenTelemetryConfig) : Library → Bool
  | Library.flask => c.instrument_flask
  | Library.sqlalchemy => c.instrument_sqlalchemy
  | Library.kafka => c.instrument_kafka
  | Library.psycopg2 => c.instrument_psycopg2

/-- One `try: if flag: X().instrument() except Exception: warn` block.
`raises lib` says whether activating `lib` raises. -/
def instrStep (flag : Bool) (raises : Library → Bool) (lib : Library) :
    List InstrEvent :=
  if flag then
    (if raises lib then [InstrEvent.warnFailed lib]
     else [InstrEvent.instrumented lib])
  else []

/-- `OpenTelemetryConfig.instrument_libraries` (lines 135-166): early
return when disabled, otherwise the four independently guarded blocks in
source order.  The behaviour of the external instrumentor calls is the
oracle `raises`. -/
def OpenTelemetryConfig.instrument_libraries (c : OpenTelemetryConfig)
    (raises : Library → Bool) : List InstrEvent :=
  if c.otel_enabled = false then []
  else
    instrStep c.instrument_flask raises Library.flask
      ++ instrStep c.instrument_sqlalchemy raises Library.sqlalchemy
      ++ instrStep c.instrument_kafka raises Library.kafka
      ++ instrStep c.instrument_psycopg2 raises Library.psycopg2

/-! ## `get_otel_config` (module-level lazy singleton) -/

/-- `get_otel_config` (lines 173-178), with the module global `_otel_config`
made explicit: takes the current cached value and returns the
configuration together with the new cached value.  A construction error
propagates and leaves the cache empty. -/
def get_otel_config (env : Env) (cached : Option OpenTelemetryConfig) :
    Except String (OpenTelemetryConfig × Option OpenTelemetryConfig) :=
  match cached with
  | some c => Except.ok (c, some c)
  | none =>
    match OpenTelemetryConfig.init env with
    | Except.ok c => Except.ok (c, some c)
    | Except.error e => Except.error e

/-! ## Tracer accessor (spec-modelled OpenTelemetry API surface) -/

/-- Modelled from the spec: the `opentelemetry.trace` API that `get_tracer`
(lines 189-191) delegates to is external to `src/app/otel_config.py`; per
the spec, `trace.get_tracer` called before any initialization "returns a
fully functional no-op tracer: spans can still be started, attributes set,
and scopes closed, but no data is recorded or exported, and no error
occurs".  A tracer records iff a provider was installed. -/
structure Tracer where
  name : String
  recording : Bool
  deriving DecidableEq, Repr

/-- Modelled from the spec: a span as produced by the API tracer; a
non-recording span accepts all operations and keeps no data. -/
structure Span where
  name : String
  recording : Bool
  attributes : List (String × String)
  ended : Bool
  deriving DecidableEq, Repr

/-- Modelled from the spec: starting a span always succeeds; the span
records iff its tracer does. -/
def Tracer.start_span (t : Tracer) (spanName : String) : Span :=
  { name := spanName, recording := t.recording, attributes := [], ended := false }

/-- Modelled from the spec: setting an attribute always succeeds and is a
no-op on a non-recording span. -/
def Span.set_attribute (s : Span) (k v : String) : Span :=
  if s.recording then { s with attributes := dictInsert s.attributes k v }
  else s

/-- Modelled from the spec: closing a span always succeeds. -/
def Span.endSpan (s : Span) : Span :=
  { s with ended := true }

/-- Modelled from the spec: the data a closed span hands to the export
pipeline; a non-recording span exports nothing. -/
def Span.exportedData (s : Span) : List (String × String) :=
  if s.recording then s.attributes else []

/-- `get_tracer` (lines 189-191) as a function of the installed global
tracing state: with no provider installed  (`none`: disabled or setup never
run) the API hands back a no-op tracer. -/
def get_tracer (state : Option SetupResult) (name : String) : Tracer :=
  match state with
  | some _ => { name := name, recording := true }
  | none => { name := name, recording := false }

/-! ## Concrete fixtures used by witnesses and counterexamples -/

/-- A fully default (tracing-disabled) configuration. -/
def cOff : OpenTelemetryConfig :=
  { service_name := "insights-host-inventory"
    service_version := "1.0.0"
    environment := "development"
    otel_enabled := false
    jaeger_endpoint := none
    otlp_endpoint := none
    console_exporter := false
    trace_sample_rate := 1 / 10
    instrument_flask := true
    instrument_sqlalchemy := true
    instrument_kafka := true
    instrument_psycopg2 := true
    custom_attributes := [] }

/-- An enabled configuration with no exporters configured. -/
def cOn : OpenTelemetryConfig :=
  { cOff with otel_enabled := true }

/-- An enabled configuration whose custom attributes collide with the fixed
resource field `service.name`. -/
def cC2 : OpenTelemetryConfig :=
  { cOff with otel_enabled := true
              custom_attributes := [("service.name", "overridden")] }

/-- An enabled configuration with a Jaeger endpoint whose port segment is
not an integer, plus the console exporter turned on. -/
def cC3 : OpenTelemetryConfig :=
  { cOff with otel_enabled := true
              jaeger_endpoint := some "bad:not-a-port"
              console_exporter := true }

/-- An environment whose sample-rate setting is not a number. -/
def envBad : Env :=
  fun n => if n = "OTEL_TRACE_SAMPLE_RATE" then some "abc" else none

/-- An environment carrying a partially malformed custom-attribute string. -/
def envC1 : Env :=
  fun n => if n = "OTEL_CUSTOM_ATTRIBUTES" then some "a=1,bad" else none

/-- Oracle: only SQLAlchemy activation raises. -/
def raisesSql : Library → Bool :=
  fun l => l == Library.sqlalchemy

/-- Oracle: no activation raises. -/
def raisesNone : Library → Bool :=
  fun _ => false

/-! ## Derived parsing functions used in claim statements -/

/-- Fold a list of raw entries into a dict, applying exactly the per-entry
split-and-insert of the parse loop and skipping nothing (used to describe
the dict accumulated over the well-formed leading entries). -/
def applyEntries (es : List String) : List (String × String) :=
  es.foldl
    (fun d e =>
      match splitFirstEq (pyStrip e) with
      | some kv => dictInsert d kv.1 kv.2
      | none => d) []

/-- The key/value pairs of the well-formed entries of a custom-attribute
string, in order. -/
def entryPairs (s : String) : List (String × String) :=
  (pySplit s ',').filterMap (fun e => splitFirstEq (pyStrip e))

/-! ## Dictionary lemmas -/

theorem dictGet_dictInsert (d : List (String × String)) (k v k' : String) :
    dictGet (dictInsert d k v) k' = if k' = k then some v else dictGet d k' := by
  induction d with
  | nil =>
    by_cases h : k' = k
    · simp [dictInsert, dictGet, List.find?, h]
    · simp [dictInsert, dictGet, List.find?, h,
        show ¬ k = k' from fun he => h he.symm]
  | cons p t ih =>
    by_cases hp : p.1 = k
    · by_cases h : k' = k
      · simp [dictInsert, dictGet, List.find?, hp, h]
      · simp [dictInsert, dictGet, List.find?, hp, h,
          show ¬ k = k' from fun he => h he.symm,
          show ¬ p.1 = k' from fun he => h ((he ▸ hp : (k' = k)))]
    · by_cases hq : p.1 = k'
      · have h : ¬ k' = k := fun he => hp (he ▸ hq)
        simp [dictInsert, dictGet, List.find?, hp, hq, h]
      · simpa [dictInsert, dictGet, List.find?, hp, hq] using ih

theorem dictGet_foldl (l : List (String × String))
    (base : List (String × String)) (k : String) :
    dictGet (l.foldl (fun d p => dictInsert d p.1 p.2) base) k =
      match lastGet l k with
      | some v => some v
      | none => dictGet base k := by
  induction l generalizing base with
  | nil => simp [lastGet]
  | cons p t ih =>
    rw [List.foldl_cons, ih]
    cases hl : lastGet t k with
    | some v => simp [lastGet, hl]
    | none =>
      by_cases hp : p.1 = k
      · simp [lastGet, hl, hp, dictGet_dictInsert]
      · have hk : ¬ k = p.1 := fun he => hp he.symm
        simp [lastGet, hl, hp, dictGet_dictInsert, hk]

/-! ## Claim theorems -/

/-- C4: for every configuration with the enabled flag false, `setup_tracing`
returns the disabled result (`None`) without installing any tracing state
(no provider, exporter, span processor or propagator is produced), and
`instrument_libraries` returns without attempting any library
instrumentation, whatever the libraries would have done. -/
theorem C4_disabled_no_state (c : OpenTelemetryConfig)
    (raises : Library → Bool) (h : c.otel_enabled = false) :
    c.setup_tracing = Except.ok none ∧ c.instrument_libraries raises = [] := by
  constructor
  · simp [OpenTelemetryConfig.setup_tracing, h]
  · simp [OpenTelemetryConfig.instrument_libraries, h]

/-- Witness for C4 at the all-defaults (disabled) configuration. -/
theorem C4_witness :
    cOff.otel_enabled = false ∧
    (cOff.setup_tracing = Except.ok none ∧
     cOff.instrument_libraries raisesNone = []) :=
  ⟨rfl, C4_disabled_no_state cOff raisesNone rfl⟩

/-- C6: whenever the sample-rate setting is present in the environment but
does not parse as a float, `OpenTelemetryConfig.__init__` itself raises
(construction returns the `ValueError`), so the failure surfaces at
configuration-construction time. -/
theorem C6_unparsable_rate_fails (env : Env) (s : String)
    (h1 : env "OTEL_TRACE_SAMPLE_RATE" = some s)
    (h2 : parseFloat? s = none) :
    OpenTelemetryConfig.init env =
      Except.error "could not convert string to float" := by
  have hg : getenvD env "OTEL_TRACE_SAMPLE_RATE" "0.1" = s := by
    simp [getenvD, h1]
  simp [OpenTelemetryConfig.init, hg, h2]

/-- Witness for C6 at an environment whose sample rate is `"abc"`. -/
theorem C6_witness :
    envBad "OTEL_TRACE_SAMPLE_RATE" = some "abc" ∧
    parseFloat? "abc" = none ∧
    OpenTelemetryConfig.init envBad =
      Except.error "could not convert string to float" :=
  ⟨by decide, by decide, C6_unparsable_rate_fails envBad "abc" (by decide) (by decide)⟩

/-- C7: every completed (enabled, non-raising) `setup_tracing` run installs
the composite propagator with exactly the formats W3C trace-context, then
B3, then the legacy Jaeger format, in that order. -/
theorem C7_propagator_order (c : OpenTelemetryConfig) (r : SetupResult)
    (h : c.setup_tracing = Except.ok (some r)) :
    r.propagators = [Propagator.traceContext, Propagator.b3MultiFormat,
      Propagator.jaegerPropagator] := by
  simp only [OpenTelemetryConfig.setup_tracing] at h
  split at h
  · simp at h
  · split at h
    · simp at h
    · rw [Except.ok.injEq, Option.some.injEq] at h
      subst h
      rfl

/-- Witness for C7 at an enabled configuration with no exporters. -/
theorem C7_witness :
    ∃ r, cOn.setup_tracing = Except.ok (some r) ∧
      r.propagators = [Propagator.traceContext, Propagator.b3MultiFormat,
        Propagator.jaegerPropagator] :=
  ⟨_, rfl, C7_propagator_order cOn _ rfl⟩

/-- C9 (spec-modelled tracing API): `get_tracer` before any initialization
(no installed tracing state) hands back a no-op tracer: starting a span,
setting an attribute and closing the scope all succeed as pure operations,
the span stores no attribute data, and nothing is exported. -/
theorem C9_noop_tracer (name spanName k v : String) :
    (get_tracer none name).recording = false ∧
    ((get_tracer none name).start_span spanName).attributes = [] ∧
    (((get_tracer none name).start_span spanName).set_attribute k v) =
      (get_tracer none name).start_span spanName ∧
    ((((get_tracer none name).start_span spanName).set_attribute k v).endSpan).ended
      = true ∧
    ((((get_tracer none name).start_span spanName).set_attribute k v).endSpan).exportedData
      = [] :=
  ⟨rfl, rfl, rfl, rfl, rfl⟩

/-- C10: `get_otel_config` is a lazy singleton: with an empty cache it
constructs the configuration from the environment (and caches it), and
with a populated cache it returns the cached configuration unchanged,
independent of the current environment. -/
theorem C10_lazy_singleton :
    (∀ env : Env, get_otel_config env none =
      (OpenTelemetryConfig.init env).map (fun c => (c, some c))) ∧
    (∀ (env1 env2 : Env) (c : OpenTelemetryConfig),
      get_otel_config env1 (some c) = Except.ok (c, some c) ∧
      get_otel_config env1 (some c) = get_otel_config env2 (some c)) := by
  constructor
  · intro env
    cases h : OpenTelemetryConfig.init env <;>
      simp [get_otel_config, h, Except.map]
  · intro env1 env2 c
    exact ⟨rfl, rfl⟩

/-! ## Instrumentation isolation (C5) -/

theorem filter_instrStep_self (f : Bool) (raises : Library → Bool)
    (l : Library) :
    (instrStep f raises l).filter (fun e => eventLib e == l)
      = instrStep f raises l := by
  cases f <;> cases hr : raises l <;> simp [instrStep, hr, eventLib]

theorem filter_instrStep_ne (f : Bool) (raises : Library → Bool)
    (l l' : Library) (h : l ≠ l') :
    (instrStep f raises l).filter (fun e => eventLib e == l') = [] := by
  cases f <;> cases hr : raises l <;> simp [instrStep, hr, eventLib, h]

/-- C5: for every enabled configuration and every behaviour of the four
instrumentors, the events concerning a given library are exactly its own
guarded block: nothing when its flag is off, the warning naming the library
when its activation raises, the activation otherwise — independent of what
the other libraries' activations do, so a failure in one never suppresses
the attempt of another. -/
theorem C5_isolated_instrumentation (c : OpenTelemetryConfig)
    (raises : Library → Bool) (lib : Library) (he : c.otel_enabled = true) :
    (c.instrument_libraries raises).filter (fun e => eventLib e == lib)
      = instrStep (libFlag c lib) raises lib := by
  cases lib <;>
    simp [OpenTelemetryConfig.instrument_libraries, he, List.filter_append,
      filter_instrStep_self, filter_instrStep_ne, libFlag]

/-- Witness for C5: with every flag on and only SQLAlchemy activation
raising, the SQLAlchemy events reduce to exactly the warning naming it,
and Kafka (a later library) is still instrumented. -/
theorem C5_witness :
    (cOn.instrument_libraries raisesSql).filter
      (fun e => eventLib e == Library.sqlalchemy)
      = [InstrEvent.warnFailed Library.sqlalchemy] ∧
    (cOn.instrument_libraries raisesSql).filter
      (fun e => eventLib e == Library.kafka)
      = [InstrEvent.instrumented Library.kafka] := by
  have h1 := C5_isolated_instrumentation cOn raisesSql Library.sqlalchemy rfl
  have h2 := C5_isolated_instrumentation cOn raisesSql Library.kafka rfl
  constructor
  · rw [h1]; decide
  · rw [h2]; decide

/-! ## Resource attribute precedence (C2) -/

/-- C2 as amended: in the resource dict built by `setup_tracing`, a custom
attribute whose key collides with a fixed field OVERRIDES the fixed field:
the resource carries the (last) custom value for that key, because
`**self.custom_attributes` is written over the fixed entries in the dict
literal passed to `Resource.create`. -/
theorem C2_custom_overrides_fixed (c : OpenTelemetryConfig) (r : SetupResult)
    (k v : String) (h : c.setup_tracing = Except.ok (some r))
    (hk : lastGet c.custom_attributes k = some v) :
    dictGet r.resource k = some v := by
  have hres : r.resource = resourceAttributes c := by
    simp only [OpenTelemetryConfig.setup_tracing] at h
    split at h
    · simp at h
    · split at h
      · simp at h
      · rw [Except.ok.injEq, Option.some.injEq] at h
        subst h
        rfl
  rw [hres, resourceAttributes, dictGet_foldl, hk]

/-- Counterexample to C2 as stated: with the custom attribute
`service.name=overridden`, the resource dict maps `service.name` to
`"overridden"`, not to the configured service name. -/
theorem C2_counterexample :
    cC2.service_name = "insights-host-inventory" ∧
    dictGet (resourceAttributes cC2) "service.name" = some "overridden" ∧
    dictGet (resourceAttributes cC2) "service.name" ≠ some cC2.service_name :=
  ⟨rfl, by decide, by decide⟩

/-- Witness for the amended C2 at the colliding configuration. -/
theorem C2_witness :
    ∃ r, cC2.setup_tracing = Except.ok (some r) ∧
      dictGet r.resource "service.name" = some "overridden" :=
  ⟨_, rfl,
    C2_custom_overrides_fixed cC2 _ "service.name" "overridden" rfl (by decide)⟩

/-! ## Exporter construction failure (C3) -/

/-- C3 as amended: exporter construction is NOT isolated per exporter.
When the configuration is enabled, the Jaeger endpoint is set and its
construction raises, the whole of `setup_tracing` aborts with that error:
no tracing state results and the other configured exporters (OTLP,
console) are never constructed or attached. -/
theorem C3_exporter_failure_aborts (c : OpenTelemetryConfig) (msg : String)
    (he : c.otel_enabled = true)
    (hj : strTruthy c.jaeger_endpoint = true)
    (hfail : buildJaegerExporter (c.jaeger_endpoint.getD "")
      = Except.error msg) :
    c.setup_tracing = Except.error msg := by
  simp [OpenTelemetryConfig.setup_tracing, he, hj, hfail]

/-- Counterexample to C3 as stated: Jaeger endpoint `bad:not-a-port` with
the console exporter enabled — construction of the Jaeger exporter raises
and `setup_tracing` aborts, so the console exporter is never attached. -/
theorem C3_counterexample :
    cC3.console_exporter = true ∧
    cC3.setup_tracing = Except.error "invalid literal for int() with base 10" :=
  ⟨rfl, rfl⟩

/-- Witness for the amended C3 at the same configuration. -/
theorem C3_witness :
    cC3.otel_enabled = true ∧ strTruthy cC3.jaeger_endpoint = true ∧
    cC3.setup_tracing = Except.error "invalid literal for int() with base 10" :=
  ⟨rfl, rfl, C3_exporter_failure_aborts cC3 _ rfl rfl rfl⟩

/-! ## Custom-attribute parse semantics (C1, C8) -/

theorem parseAttrsLoop_stops (es : List String) (acc : List (String × String))
    (h : ∃ e ∈ es, splitFirstEq (pyStrip e) = none) :
    parseAttrsLoop es acc =
      ((es.takeWhile (fun e => (splitFirstEq (pyStrip e)).isSome)).foldl
        (fun d e =>
          match splitFirstEq (pyStrip e) with
          | some kv => dictInsert d kv.1 kv.2
          | none => d) acc, true) := by
  induction es generalizing acc with
  | nil => simp at h
  | cons e t ih =>
    cases hs : splitFirstEq (pyStrip e) with
    | none => simp [parseAttrsLoop, hs, List.takeWhile_cons]
    | some kv =>
      have ht : ∃ x ∈ t, splitFirstEq (pyStrip x) = none := by
        rcases h with ⟨x, hx, hxn⟩
        rcases List.mem_cons.mp hx with rfl | hx2
        · rw [hxn] at hs
          cases hs
        · exact ⟨x, hx2, hxn⟩
      simp [parseAttrsLoop, hs, List.takeWhile_cons, ih _ ht]

theorem parseAttrsLoop_all_good (es : List String)
    (acc : List (String × String))
    (h : ∀ e ∈ es, (splitFirstEq (pyStrip e)).isSome) :
    parseAttrsLoop es acc =
      ((es.filterMap (fun e => splitFirstEq (pyStrip e))).foldl
        (fun d p => dictInsert d p.1 p.2) acc, false) := by
  induction es generalizing acc with
  | nil => simp [parseAttrsLoop]
  | cons e t ih =>
    cases hs : splitFirstEq (pyStrip e) with
    | none =>
      have := h e (List.mem_cons_self e t)
      rw [hs] at this
      cases this
    | some kv =>
      simp [parseAttrsLoop, hs, List.filterMap_cons,
        ih _ (fun x hx => h x (List.mem_cons_of_mem _ hx))]

/-- C1 as amended: for a nonempty custom-attribute string containing a
malformed entry (no `'='` after stripping), the parse is NOT all-or-
nothing: it stops at the first malformed entry, keeping exactly the
entries parsed before it, and logs the warning; configuration construction
still does not fail (given the sample-rate setting is left at its parseable
default), and the partially-filled dict becomes the configuration's
custom attributes. -/
theorem C1_parse_keeps_leading_entries (s : String) (h1 : s ≠ "")
    (h2 : ∃ e ∈ pySplit s ',', splitFirstEq (pyStrip e) = none) :
    parse_custom_attributes s =
      (applyEntries ((pySplit s ',').takeWhile
        (fun e => (splitFirstEq (pyStrip e)).isSome)), true) ∧
    ∀ env : Env, env "OTEL_CUSTOM_ATTRIBUTES" = some s →
      env "OTEL_TRACE_SAMPLE_RATE" = none →
      ∃ c, OpenTelemetryConfig.init env = Except.ok c ∧
        c.custom_attributes = (parse_custom_attributes s).1 := by
  have hmain : parse_custom_attributes s =
      (applyEntries ((pySplit s ',').takeWhile
        (fun e => (splitFirstEq (pyStrip e)).isSome)), true) := by
    rw [parse_custom_attributes, if_pos h1, applyEntries,
      parseAttrsLoop_stops _ _ h2]
  refine ⟨hmain, ?_⟩
  intro env hattr hrate
  have hg : getenvD env "OTEL_TRACE_SAMPLE_RATE" "0.1" = "0.1" := by
    simp [getenvD, hrate]
  have hga : getenvD env "OTEL_CUSTOM_ATTRIBUTES" "" = s := by
    simp [getenvD, hattr]
  have hfloat : (parseFloat? "0.1").isSome := by decide
  rw [OpenTelemetryConfig.init, hg]
  cases hp : parseFloat? "0.1" with
  | none =>
    rw [hp] at hfloat
    cases hfloat
  | some rate => exact ⟨_, rfl, by rw [hga]⟩

/-- Counterexample to C1 as stated: the input `"a=1,bad"` contains a
malformed entry, yet the resulting attribute map is `{a: 1}`, not empty —
the entries parsed before the failure are kept. -/
theorem C1_counterexample :
    (∃ e ∈ pySplit "a=1,bad" ',', splitFirstEq (pyStrip e) = none) ∧
    (parse_custom_attributes "a=1,bad").2 = true ∧
    (parse_custom_attributes "a=1,bad").1 = [("a", "1")] ∧
    (parse_custom_attributes "a=1,bad").1 ≠ [] :=
  ⟨⟨"bad", by decide, by decide⟩, by decide, by decide, by decide⟩

/-- Witness for the amended C1 at `"a=1,bad"` and an environment carrying
it. -/
theorem C1_witness :
    (parse_custom_attributes "a=1,bad").1 = [("a", "1")] ∧
    (parse_custom_attributes "a=1,bad").2 = true ∧
    ∃ c, OpenTelemetryConfig.init envC1 = Except.ok c ∧
      c.custom_attributes = [("a", "1")] := by
  have h := C1_parse_keeps_leading_entries "a=1,bad" (by decide)
    ⟨"bad", by decide, by decide⟩
  obtain ⟨c, hc, hattrs⟩ := h.2 envC1 (by decide) (by decide)
  refine ⟨by decide, by decide, c, hc, ?_⟩
  rw [hattrs]
  decide

theorem breakAtChar_no_sep_append (sep : Char) (l1 l2 : List Char)
    (h : ∀ ch ∈ l1, ch ≠ sep) :
    breakAtChar sep (l1 ++ sep :: l2) = some (l1, l2) := by
  induction l1 with
  | nil => simp [breakAtChar]
  | cons c t ih =>
    have hc : ¬ c = sep := h c (List.mem_cons_self c t)
    simp [breakAtChar, hc,
      ih (fun x hx => h x (List.mem_cons_of_mem c hx))]

/-- C8: each well-formed entry is split on its FIRST `'='` only (so the
value may itself contain `'='` characters), and for a fully well-formed
custom-attribute string the resulting map gives every key the value of its
LAST entry (last-write-wins on duplicates). -/
theorem C8_split_first_and_last_wins :
    (∀ a b : String, (∀ ch ∈ a.data, ch ≠ '=') →
      splitFirstEq (a ++ "=" ++ b) = some (a, b)) ∧
    (∀ s : String, s ≠ "" →
      (∀ e ∈ pySplit s ',', (splitFirstEq (pyStrip e)).isSome) →
      ∀ k, dictGet (parse_custom_attributes s).1 k = lastGet (entryPairs s) k) := by
  constructor
  · intro a b h
    have hdata : (a ++ "=" ++ b).data = a.data ++ '=' :: b.data := by
      simp [String.data_append]
    rw [splitFirstEq, hdata, breakAtChar_no_sep_append _ _ _ h]
  · intro s hs hgood k
    rw [parse_custom_attributes, if_pos hs, parseAttrsLoop_all_good _ _ hgood]
    rw [entryPairs, dictGet_foldl]
    cases hl : lastGet ((pySplit s ',').filterMap
        (fun e => splitFirstEq (pyStrip e))) k with
    | none => rfl
    | some v => rfl

/-- Witness for C8: `"a"` containing no `'='` splits `"a=1=2"` at the first
`'='` with the value keeping its own `'='`; and in `"a=1=2,a=3"` the later
entry wins: the map sends `a` to `"3"`. -/
theorem C8_witness :
    splitFirstEq ("a" ++ "=" ++ "1=2") = some ("a", "1=2") ∧
    dictGet (parse_custom_attributes "a=1=2,a=3").1 "a"
      = lastGet (entryPairs "a=1=2,a=3") "a" ∧
    dictGet (parse_custom_attributes "a=1=2,a=3").1 "a" = some "3" := by
  have h := C8_split_first_and_last_wins
  exact ⟨h.1 "a" "1=2" (by decide),
    h.2 "a=1=2,a=3" (by decide) (by decide) "a", by decide⟩
